import Mathlib

/-!
# Verification of `Overlap_Clipper` (`src/algorithms.py`)

The repository consists of three Python functions (`clean_overlap`,
`clean_geometry_artifacts`, `get_feature_area`) that orchestrate calls into
an external geometry engine (QGIS `QgsGeometry` / `QgsFeature`).

Shallow embedding:

* The external engine is an abstract `Engine G`: one field per engine method
  the source calls (`intersects`, `difference`, `isGeosValid`, `makeValid`,
  `removeDuplicateNodes`, `isEmpty`, `area`), plus the canonical empty
  geometry `QgsGeometry()` (`emptyGeom`), Python truthiness of a geometry
  value (`truthy`), and an observer `hasDuplicateNodes` used only to *state*
  the deduplication postcondition.  Facts the source relies on about the
  engine (e.g. `makeValid` returns a valid geometry) appear as explicit
  hypotheses of the theorems.

* Python objects live on a heap: `Store G` maps references (`Nat`) to
  geometry values; references below `next` are allocated.  Methods that
  return a new `QgsGeometry` (`difference`, `makeValid`, `QgsGeometry()`)
  allocate a fresh reference; `removeDuplicateNodes` mutates its receiver
  in place (a `Store.set` at the receiver's reference).

* Each Python function becomes a store-passing Lean function, and has a
  `_calls` companion that traces, in order, the engine methods invoked —
  it follows exactly the same control flow as the function itself and is
  used to settle the claims about which operations are (not) performed and
  in which order.
-/

namespace OverlapClipper

/-- The external geometry engine's capability set, as used by
`src/algorithms.py`: one field per `QgsGeometry` method the source calls.
`emptyGeom` is the value constructed by `QgsGeometry()`; `truthy` is Python
truthiness of a geometry value (used by `if feature.geometry():`);
`hasDuplicateNodes` is a specification-side observer for stating that a
geometry contains no duplicate coincident vertices. -/
structure Engine (G : Type) where
  intersects : G → G → Bool
  difference : G → G → G
  isGeosValid : G → Bool
  makeValid : G → G
  removeDuplicateNodes : G → G
  isEmpty : G → Bool
  area : G → Int
  emptyGeom : G
  truthy : G → Bool
  hasDuplicateNodes : G → Bool

/-- A heap of Python geometry objects: `mem r` is the value of reference
`r`, and references `< next` are the allocated ones. -/
structure Store (G : Type) where
  mem : Nat → G
  next : Nat

/-- Read the object at reference `r`. -/
def Store.get {G : Type} (st : Store G) (r : Nat) : G :=
  st.mem r

/-- In-place update of the object at reference `r` (models a mutating
method call such as `removeDuplicateNodes`). -/
def Store.set {G : Type} (st : Store G) (r : Nat) (v : G) : Store G :=
  ⟨fun i => if i = r then v else st.mem i, st.next⟩

/-- Allocate a fresh object holding `v`; the fresh reference is the old
`next` (models a method that returns a new `QgsGeometry`). -/
def Store.alloc {G : Type} (st : Store G) (v : G) : Store G :=
  ⟨fun i => if i = st.next then v else st.mem i, st.next + 1⟩

/-- The engine methods `src/algorithms.py` can invoke, for call tracing. -/
inductive EOp : Type
  | intersectsOp
  | differenceOp
  | validOp
  | makeValidOp
  | dedupOp
  | isEmptyOp
deriving DecidableEq

/-- Embedding of `clean_overlap(geom_to_be_clipped, geom_clipper)`
(src/algorithms.py lines 3-48).  `a` is the reference of
`geom_to_be_clipped`, `b` the reference of `geom_clipper`; the result is
the updated heap together with the reference of the returned geometry.
`difference`, `makeValid` and `QgsGeometry()` allocate fresh objects;
`removeDuplicateNodes` mutates its receiver in place. -/
def clean_overlap {G : Type} (E : Engine G) (st : Store G) (a b : Nat) :
    Store G × Nat :=
  if E.intersects (st.get a) (st.get b) = false then
    (st, a)
  else
    let st1 := st.alloc (E.difference (st.get a) (st.get b))
    let p : Store G × Nat :=
      if E.isGeosValid (st1.get st.next) = false then
        (st1.alloc (E.makeValid (st1.get st.next)), st1.next)
      else
        (st1, st.next)
    let st3 := p.1.set p.2 (E.removeDuplicateNodes (p.1.get p.2))
    if E.isEmpty (st3.get p.2) = true then
      (st3.alloc E.emptyGeom, st3.next)
    else
      (st3, p.2)

/-- The sequence of engine methods `clean_overlap` invokes, in order; same
control flow as `clean_overlap` (src/algorithms.py lines 18, 23, 39, 40,
43, 45). -/
def clean_overlap_calls {G : Type} (E : Engine G) (st : Store G)
    (a b : Nat) : List EOp :=
  if E.intersects (st.get a) (st.get b) = false then
    [EOp.intersectsOp]
  else
    let d := E.difference (st.get a) (st.get b)
    let repair := if E.isGeosValid d = false then [EOp.makeValidOp] else []
    [EOp.intersectsOp, EOp.differenceOp, EOp.validOp] ++ repair ++
      [EOp.dedupOp, EOp.isEmptyOp]

/-- The geometry *value* computed by the intersecting branch of
`clean_overlap` before the final emptiness test: the difference, repaired
when invalid, then deduplicated (src/algorithms.py lines 23, 39-43). -/
def overlap_pipeline {G : Type} (E : Engine G) (va vb : G) : G :=
  let d := E.difference va vb
  let d2 := if E.isGeosValid d = false then E.makeValid d else d
  E.removeDuplicateNodes d2

/-- Embedding of `clean_geometry_artifacts(geometry)`
(src/algorithms.py lines 50-71).  `g` is the reference of `geometry`;
`removeDuplicateNodes` mutates the input in place, and
`geometry = geometry.makeValid()` rebinds to a freshly allocated object. -/
def clean_geometry_artifacts {G : Type} (E : Engine G) (st : Store G)
    (g : Nat) : Store G × Nat :=
  if E.isEmpty (st.get g) = true then
    (st, g)
  else
    let st1 := st.set g (E.removeDuplicateNodes (st.get g))
    if E.isGeosValid (st1.get g) = false then
      (st1.alloc (E.makeValid (st1.get g)), st1.next)
    else
      (st1, g)

/-- The sequence of engine methods `clean_geometry_artifacts` invokes, in
order; same control flow as the function itself
(src/algorithms.py lines 61, 65, 68, 69). -/
def clean_geometry_artifacts_calls {G : Type} (E : Engine G) (st : Store G)
    (g : Nat) : List EOp :=
  if E.isEmpty (st.get g) = true then
    [EOp.isEmptyOp]
  else
    let repair :=
      if E.isGeosValid (E.removeDuplicateNodes (st.get g)) = false then
        [EOp.makeValidOp]
      else []
    [EOp.isEmptyOp, EOp.dedupOp, EOp.validOp] ++ repair

/-- A `QgsFeature`, as far as `src/algorithms.py` observes it: the
reference of the geometry its accessor `feature.geometry()` yields. -/
structure Feature where
  geometry : Nat

/-- Embedding of `get_feature_area(feature)`
(src/algorithms.py lines 73-86): if the accessed geometry is truthy,
return its `area()`, else `0.0`.  The heap is threaded through to record
that the function performs no mutation. -/
def get_feature_area {G : Type} (E : Engine G) (st : Store G)
    (f : Feature) : Store G × Int :=
  if E.truthy (st.get f.geometry) = true then
    (st, E.area (st.get f.geometry))
  else
    (st, 0)

/-- Position of the first occurrence of `o` in a call trace. -/
def opIndex (o : EOp) : List EOp → Nat
  | [] => 0
  | x :: xs => if x = o then 0 else opIndex o xs + 1

/-! ## A small concrete engine, used to witness the theorems

`GVal` is a toy geometry value recording just the observations the source
makes: emptiness, GEOS-validity, presence of duplicate nodes, and a tag
that doubles as the area.  `EW` interprets every engine method on it. -/

/-- Concrete geometry values for witnesses. -/
structure GVal where
  empt : Bool
  valid : Bool
  dups : Bool
  tag : Nat
deriving DecidableEq

/-- A concrete engine instance on `GVal`: two geometries intersect when
both are non-empty, the difference of equal-tag geometries is empty,
`makeValid` sets the validity flag, `removeDuplicateNodes` clears the
duplicate flag, truthiness is non-emptiness, area is the tag. -/
def EW : Engine GVal where
  intersects := fun x y => !x.empt && !y.empt
  difference := fun x y =>
    { empt := decide (x.tag = y.tag), valid := decide (x.tag % 2 = 0),
      dups := true, tag := x.tag + y.tag }
  isGeosValid := fun x => x.valid
  makeValid := fun x => { x with valid := true }
  removeDuplicateNodes := fun x => { x with dups := false }
  isEmpty := fun x => x.empt
  area := fun x => (x.tag : Int)
  emptyGeom := ⟨true, true, false, 0⟩
  truthy := fun x => !x.empt
  hasDuplicateNodes := fun x => x.dups

/-- A concrete heap for witnesses: six allocated geometries. -/
def stW : Store GVal where
  mem := fun i =>
    if i = 0 then ⟨false, true, false, 1⟩
    else if i = 1 then ⟨false, true, false, 2⟩
    else if i = 2 then ⟨false, true, false, 4⟩
    else if i = 3 then ⟨false, false, true, 4⟩
    else if i = 4 then ⟨true, true, false, 5⟩
    else if i = 5 then ⟨false, true, true, 6⟩
    else ⟨true, true, false, 0⟩
  next := 6

/-! ## Mutation propositions (for the aliasing claims)

"Function X mutates its input geometry in place" is formalised as: there
exist an engine, a heap and allocated input reference(s) such that after
the call the heap holds a different value at an input reference. -/

/-- `clean_overlap` can mutate one of its two input geometries. -/
def overlap_mutates_an_input : Prop :=
  ∃ (E : Engine GVal) (st : Store GVal) (a b : Nat),
    a < st.next ∧ b < st.next ∧
      ((clean_overlap E st a b).1.get a ≠ st.get a ∨
        (clean_overlap E st a b).1.get b ≠ st.get b)

/-- `clean_geometry_artifacts` can mutate its input geometry. -/
def artifacts_mutates_its_input : Prop :=
  ∃ (E : Engine GVal) (st : Store GVal) (g : Nat),
    g < st.next ∧ (clean_geometry_artifacts E st g).1.get g ≠ st.get g

/-- `get_feature_area` can mutate the feature's geometry. -/
def area_mutates_its_input : Prop :=
  ∃ (E : Engine GVal) (st : Store GVal) (f : Feature),
    f.geometry < st.next ∧
      (get_feature_area E st f).1.get f.geometry ≠ st.get f.geometry

/-- Exactly two of the three public functions mutate their input geometry
in place (the claim of spec §5). -/
def exactly_two_mutate : Prop :=
  (overlap_mutates_an_input ∧ artifacts_mutates_its_input ∧
      ¬area_mutates_its_input) ∨
    (overlap_mutates_an_input ∧ ¬artifacts_mutates_its_input ∧
      area_mutates_its_input) ∨
    (¬overlap_mutates_an_input ∧ artifacts_mutates_its_input ∧
      area_mutates_its_input)

/-! ## Heap lemmas -/

theorem Store.get_set_same {G : Type} (st : Store G) (r : Nat) (v : G) :
    (st.set r v).get r = v := by
  simp [Store.get, Store.set]

theorem Store.get_set_ne {G : Type} (st : Store G) (r j : Nat) (v : G)
    (h : j ≠ r) : (st.set r v).get j = st.get j := by
  simp [Store.get, Store.set, h]

theorem Store.get_alloc_new {G : Type} (st : Store G) (v : G) :
    (st.alloc v).get st.next = v := by
  simp [Store.get, Store.alloc]

theorem Store.get_alloc_old {G : Type} (st : Store G) (v : G) (j : Nat)
    (h : j ≠ st.next) : (st.alloc v).get j = st.get j := by
  simp [Store.get, Store.alloc, h]

theorem Store.next_set {G : Type} (st : Store G) (r : Nat) (v : G) :
    (st.set r v).next = st.next :=
  rfl

theorem Store.next_alloc {G : Type} (st : Store G) (v : G) :
    (st.alloc v).next = st.next + 1 :=
  rfl

/-! ## Characterisation lemmas for `clean_overlap` -/

theorem clean_overlap_of_not_intersects {G : Type} (E : Engine G)
    (st : Store G) (a b : Nat)
    (h : E.intersects (st.get a) (st.get b) = false) :
    clean_overlap E st a b = (st, a) := by
  simp [clean_overlap, h]

/-- In the intersecting case, the geometry value returned by
`clean_overlap` is the pipeline value, except that an empty pipeline value
is replaced by the canonical empty geometry. -/
theorem clean_overlap_get_of_intersects {G : Type} (E : Engine G)
    (st : Store G) (a b : Nat)
    (hi : E.intersects (st.get a) (st.get b) = true) :
    (clean_overlap E st a b).1.get (clean_overlap E st a b).2 =
      if E.isEmpty (overlap_pipeline E (st.get a) (st.get b)) = true then
        E.emptyGeom
      else overlap_pipeline E (st.get a) (st.get b) := by
  cases hv : E.isGeosValid (E.difference (st.get a) (st.get b))
  all_goals cases he : E.isEmpty (overlap_pipeline E (st.get a) (st.get b))
  all_goals
    (simp only [Store.get] at hi hv
     simp [overlap_pipeline, Store.get, hv] at he
     simp [clean_overlap, overlap_pipeline, hi, hv, he,
       Store.get, Store.set, Store.alloc])

/-- `clean_overlap` never writes to a previously allocated reference: every
write (the allocations for `difference` / `makeValid` / `QgsGeometry()` and
the in-place `removeDuplicateNodes`) targets a fresh reference. -/
theorem clean_overlap_frame {G : Type} (E : Engine G) (st : Store G)
    (a b j : Nat) (hj : j < st.next) :
    (clean_overlap E st a b).1.get j = st.get j := by
  have h1 : j ≠ st.next := by omega
  have h2 : j ≠ st.next + 1 := by omega
  have h3 : j ≠ st.next + 1 + 1 := by omega
  cases hi : E.intersects (st.get a) (st.get b)
  · simp [clean_overlap, hi]
  · cases hv : E.isGeosValid (E.difference (st.get a) (st.get b))
    all_goals cases he : E.isEmpty (overlap_pipeline E (st.get a) (st.get b))
    all_goals
      (simp only [Store.get] at hi hv
       simp [overlap_pipeline, Store.get, hv] at he
       simp [clean_overlap, Store.get, Store.set, Store.alloc, hi, hv, he,
         h1, h2, h3])

/-- In the intersecting case with an empty pipeline value, the returned
reference is the one freshly allocated for `QgsGeometry()`: the reference
just past those holding the difference result and (when repair ran) the
repaired result. -/
theorem clean_overlap_ref_of_empty {G : Type} (E : Engine G) (st : Store G)
    (a b : Nat) (hi : E.intersects (st.get a) (st.get b) = true)
    (he : E.isEmpty (overlap_pipeline E (st.get a) (st.get b)) = true) :
    (clean_overlap E st a b).2 =
      if E.isGeosValid (E.difference (st.get a) (st.get b)) = false then
        st.next + 2
      else st.next + 1 := by
  cases hv : E.isGeosValid (E.difference (st.get a) (st.get b))
  all_goals
    (simp only [Store.get] at hi hv
     simp [overlap_pipeline, Store.get, hv] at he
     simp [clean_overlap, Store.get, Store.set, Store.alloc, hi, hv, he])

/-! ## The claims -/

/-- C1: for every pair of geometries that intersect, the geometry returned
by `clean_overlap` is valid per the engine's validity predicate and
contains no duplicate coincident vertices.  The hypotheses are the engine
contract the source relies on: `makeValid` yields a valid geometry,
`removeDuplicateNodes` yields a duplicate-free geometry and preserves
validity, and the canonical empty geometry is valid and duplicate-free. -/
theorem C1_clean_overlap_valid_and_nodup {G : Type} (E : Engine G)
    (st : Store G) (a b : Nat)
    (hi : E.intersects (st.get a) (st.get b) = true)
    (hmv : ∀ g, E.isGeosValid (E.makeValid g) = true)
    (hdd : ∀ g, E.hasDuplicateNodes (E.removeDuplicateNodes g) = false)
    (hdv : ∀ g, E.isGeosValid g = true →
      E.isGeosValid (E.removeDuplicateNodes g) = true)
    (hev : E.isGeosValid E.emptyGeom = true)
    (hed : E.hasDuplicateNodes E.emptyGeom = false) :
    E.isGeosValid
        ((clean_overlap E st a b).1.get (clean_overlap E st a b).2) = true ∧
      E.hasDuplicateNodes
        ((clean_overlap E st a b).1.get (clean_overlap E st a b).2) =
          false := by
  have hval : ∀ va vb : G,
      E.isGeosValid (overlap_pipeline E va vb) = true := by
    intro va vb
    cases hv : E.isGeosValid (E.difference va vb)
    · have hrw : overlap_pipeline E va vb =
          E.removeDuplicateNodes (E.makeValid (E.difference va vb)) := by
        simp [overlap_pipeline, hv]
      rw [hrw]
      exact hdv _ (hmv _)
    · have hrw : overlap_pipeline E va vb =
          E.removeDuplicateNodes (E.difference va vb) := by
        simp [overlap_pipeline, hv]
      rw [hrw]
      exact hdv _ hv
  have hdup : ∀ va vb : G,
      E.hasDuplicateNodes (overlap_pipeline E va vb) = false := by
    intro va vb
    unfold overlap_pipeline
    exact hdd _
  rw [clean_overlap_get_of_intersects E st a b hi]
  cases he : E.isEmpty (overlap_pipeline E (st.get a) (st.get b))
  · simp [hval, hdup]
  · simp [hev, hed]

/-- Witness for C1: the unit inputs at references 0 and 1 of `stW`
intersect under `EW`, and `clean_overlap` returns a valid, duplicate-free
geometry on them. -/
theorem C1_witness :
    EW.isGeosValid
        ((clean_overlap EW stW 0 1).1.get (clean_overlap EW stW 0 1).2) =
          true ∧
      EW.hasDuplicateNodes
        ((clean_overlap EW stW 0 1).1.get (clean_overlap EW stW 0 1).2) =
          false :=
  C1_clean_overlap_valid_and_nodup EW stW 0 1 (by decide) (fun _ => rfl)
    (fun _ => rfl) (fun _ h => h) rfl rfl

/-- C2: when the inputs do not intersect, `clean_overlap` returns the
subject reference itself with the heap untouched (identity passthrough, no
copy), and the engine's difference operation is never invoked. -/
theorem C2_clean_overlap_disjoint_identity {G : Type} (E : Engine G)
    (st : Store G) (a b : Nat)
    (h : E.intersects (st.get a) (st.get b) = false) :
    clean_overlap E st a b = (st, a) ∧
      EOp.differenceOp ∉ clean_overlap_calls E st a b := by
  refine ⟨clean_overlap_of_not_intersects E st a b h, ?_⟩
  simp [clean_overlap_calls, h]

/-- Witness for C2: reference 4 of `stW` holds an empty geometry, so it
does not intersect reference 0; `clean_overlap` is the identity there. -/
theorem C2_witness :
    clean_overlap EW stW 0 4 = (stW, 0) ∧
      EOp.differenceOp ∉ clean_overlap_calls EW stW 0 4 :=
  C2_clean_overlap_disjoint_identity EW stW 0 4 (by decide)

/-- C3: for intersecting inputs whose difference, after the conditional
repair and the deduplication, is empty, `clean_overlap` returns the
canonical empty geometry `QgsGeometry()` at a freshly allocated reference
— the reference just past those holding the computed (degenerate)
pipeline result, so not that result. -/
theorem C3_clean_overlap_canonical_empty {G : Type} (E : Engine G)
    (st : Store G) (a b : Nat)
    (hi : E.intersects (st.get a) (st.get b) = true)
    (he : E.isEmpty (overlap_pipeline E (st.get a) (st.get b)) = true) :
    (clean_overlap E st a b).1.get (clean_overlap E st a b).2 =
        E.emptyGeom ∧
      (clean_overlap E st a b).2 =
        (if E.isGeosValid (E.difference (st.get a) (st.get b)) = false then
          st.next + 2
        else st.next + 1) := by
  constructor
  · rw [clean_overlap_get_of_intersects E st a b hi]
    simp [he]
  · exact clean_overlap_ref_of_empty E st a b hi he

/-- Witness for C3: references 2 and 2 of `stW` intersect and their
difference under `EW` is empty, so the canonical empty geometry comes back
at the fresh reference 7. -/
theorem C3_witness :
    (clean_overlap EW stW 2 2).1.get (clean_overlap EW stW 2 2).2 =
        EW.emptyGeom ∧
      (clean_overlap EW stW 2 2).2 =
        (if EW.isGeosValid (EW.difference (stW.get 2) (stW.get 2)) = false
          then stW.next + 2
        else stW.next + 1) :=
  C3_clean_overlap_canonical_empty EW stW 2 2 (by decide) (by decide)

/-- C9: `clean_overlap` leaves both of its argument geometries unmutated:
after the call the heap holds the original values at both input
references (the in-place `removeDuplicateNodes` only ever targets the
freshly allocated difference / repair result). -/
theorem C9_clean_overlap_inputs_unmutated {G : Type} (E : Engine G)
    (st : Store G) (a b : Nat) (ha : a < st.next) (hb : b < st.next) :
    (clean_overlap E st a b).1.get a = st.get a ∧
      (clean_overlap E st a b).1.get b = st.get b :=
  ⟨clean_overlap_frame E st a b a ha, clean_overlap_frame E st a b b hb⟩

/-- Witness for C9: on the intersecting pair at references 0 and 1 of
`stW` (where deduplication does run), both inputs are unchanged. -/
theorem C9_witness :
    (clean_overlap EW stW 0 1).1.get 0 = stW.get 0 ∧
      (clean_overlap EW stW 0 1).1.get 1 = stW.get 1 :=
  C9_clean_overlap_inputs_unmutated EW stW 0 1 (by decide) (by decide)

/-- C5: on an empty geometry, `clean_geometry_artifacts` returns the very
same reference with the heap untouched, and invokes no deduplication, no
validity check and no repair — its only engine call is the emptiness
test. -/
theorem C5_artifacts_empty_identity {G : Type} (E : Engine G)
    (st : Store G) (g : Nat) (h : E.isEmpty (st.get g) = true) :
    clean_geometry_artifacts E st g = (st, g) ∧
      clean_geometry_artifacts_calls E st g = [EOp.isEmptyOp] := by
  constructor <;>
    simp [clean_geometry_artifacts, clean_geometry_artifacts_calls, h]

/-- Witness for C5: reference 4 of `stW` holds an empty geometry. -/
theorem C5_witness :
    clean_geometry_artifacts EW stW 4 = (stW, 4) ∧
      clean_geometry_artifacts_calls EW stW 4 = [EOp.isEmptyOp] :=
  C5_artifacts_empty_identity EW stW 4 (by decide)

/-- C6: on a non-empty geometry that is invalid per the engine's validity
predicate, `clean_geometry_artifacts` returns a geometry that passes the
predicate, given the engine contract that `makeValid` returns a valid
geometry. -/
theorem C6_artifacts_result_valid {G : Type} (E : Engine G) (st : Store G)
    (g : Nat) (hne : E.isEmpty (st.get g) = false)
    (_hinv : E.isGeosValid (st.get g) = false)
    (hmv : ∀ x, E.isGeosValid (E.makeValid x) = true) :
    E.isGeosValid ((clean_geometry_artifacts E st g).1.get
      (clean_geometry_artifacts E st g).2) = true := by
  cases hv : E.isGeosValid (E.removeDuplicateNodes (st.get g))
  all_goals
    (simp only [Store.get] at hne hv
     simp [clean_geometry_artifacts, Store.get, Store.set, Store.alloc,
       hne, hv, hmv])

/-- Witness for C6: reference 3 of `stW` holds a non-empty invalid
geometry; cleaning it yields a valid one. -/
theorem C6_witness :
    EW.isGeosValid ((clean_geometry_artifacts EW stW 3).1.get
      (clean_geometry_artifacts EW stW 3).2) = true :=
  C6_artifacts_result_valid EW stW 3 (by decide) (by decide) (fun _ => rfl)

/-- C7: the two cleaners order their steps oppositely.  On a non-empty
input, `clean_geometry_artifacts` deduplicates unconditionally and only
then checks validity, repairing (after the check) exactly when the
deduplicated geometry is invalid; on intersecting inputs, `clean_overlap`
checks validity first, repairs (before deduplicating) exactly when the
difference is invalid, and deduplicates only afterwards. -/
theorem C7_opposite_step_order {G : Type} (E : Engine G) (st : Store G)
    (g a b : Nat) (hg : E.isEmpty (st.get g) = false)
    (hi : E.intersects (st.get a) (st.get b) = true) :
    EOp.dedupOp ∈ clean_geometry_artifacts_calls E st g ∧
      opIndex EOp.dedupOp (clean_geometry_artifacts_calls E st g) <
        opIndex EOp.validOp (clean_geometry_artifacts_calls E st g) ∧
      (EOp.makeValidOp ∈ clean_geometry_artifacts_calls E st g ↔
        E.isGeosValid (E.removeDuplicateNodes (st.get g)) = false) ∧
      (E.isGeosValid (E.removeDuplicateNodes (st.get g)) = false →
        opIndex EOp.validOp (clean_geometry_artifacts_calls E st g) <
          opIndex EOp.makeValidOp (clean_geometry_artifacts_calls E st g)) ∧
      EOp.dedupOp ∈ clean_overlap_calls E st a b ∧
      opIndex EOp.validOp (clean_overlap_calls E st a b) <
        opIndex EOp.dedupOp (clean_overlap_calls E st a b) ∧
      (EOp.makeValidOp ∈ clean_overlap_calls E st a b ↔
        E.isGeosValid (E.difference (st.get a) (st.get b)) = false) ∧
      (E.isGeosValid (E.difference (st.get a) (st.get b)) = false →
        opIndex EOp.makeValidOp (clean_overlap_calls E st a b) <
          opIndex EOp.dedupOp (clean_overlap_calls E st a b)) := by
  cases hv1 : E.isGeosValid (E.removeDuplicateNodes (st.get g))
  all_goals
    cases hv2 : E.isGeosValid (E.difference (st.get a) (st.get b))
  all_goals
    (simp only [Store.get] at hg hi hv1 hv2
     simp [clean_geometry_artifacts_calls, clean_overlap_calls,
       Store.get, hg, hi, hv1, hv2, opIndex])

/-- Witness for C7: a non-empty geometry at reference 5 and the
intersecting pair at references 0 and 1 of `stW`. -/
theorem C7_witness :
    EOp.dedupOp ∈ clean_geometry_artifacts_calls EW stW 5 ∧
      opIndex EOp.dedupOp (clean_geometry_artifacts_calls EW stW 5) <
        opIndex EOp.validOp (clean_geometry_artifacts_calls EW stW 5) ∧
      (EOp.makeValidOp ∈ clean_geometry_artifacts_calls EW stW 5 ↔
        EW.isGeosValid (EW.removeDuplicateNodes (stW.get 5)) = false) ∧
      (EW.isGeosValid (EW.removeDuplicateNodes (stW.get 5)) = false →
        opIndex EOp.validOp (clean_geometry_artifacts_calls EW stW 5) <
          opIndex EOp.makeValidOp (clean_geometry_artifacts_calls EW stW 5)) ∧
      EOp.dedupOp ∈ clean_overlap_calls EW stW 0 1 ∧
      opIndex EOp.validOp (clean_overlap_calls EW stW 0 1) <
        opIndex EOp.dedupOp (clean_overlap_calls EW stW 0 1) ∧
      (EOp.makeValidOp ∈ clean_overlap_calls EW stW 0 1 ↔
        EW.isGeosValid (EW.difference (stW.get 0) (stW.get 1)) = false) ∧
      (EW.isGeosValid (EW.difference (stW.get 0) (stW.get 1)) = false →
        opIndex EOp.makeValidOp (clean_overlap_calls EW stW 0 1) <
          opIndex EOp.dedupOp (clean_overlap_calls EW stW 0 1)) :=
  C7_opposite_step_order EW stW 5 0 1 (by decide) (by decide)

/-- C4: `get_feature_area` returns the engine's area of the feature's
geometry when the accessed geometry is truthy, and exactly 0 when it is
not; both cases are ordinary returns (the function is total — no error
path exists in the embedding). -/
theorem C4_get_feature_area_cases {G : Type} (E : Engine G) (st : Store G)
    (f : Feature) :
    (E.truthy (st.get f.geometry) = true →
      (get_feature_area E st f).2 = E.area (st.get f.geometry)) ∧
      (E.truthy (st.get f.geometry) = false →
        (get_feature_area E st f).2 = 0) := by
  constructor <;> intro h <;> simp [get_feature_area, h]

/-- Witness for C4: the truthy geometry at reference 0 yields its area,
the absent (falsy) one at reference 4 yields 0. -/
theorem C4_witness :
    (get_feature_area EW stW ⟨0⟩).2 = EW.area (stW.get 0) ∧
      (get_feature_area EW stW ⟨4⟩).2 = 0 :=
  ⟨(C4_get_feature_area_cases EW stW ⟨0⟩).1 (by decide),
    (C4_get_feature_area_cases EW stW ⟨4⟩).2 (by decide)⟩

/-- C10: when the accessed geometry is present but falsy,
`get_feature_area` returns 0 and does not delegate to the geometry's area
computation, even when that area is nonzero: the truthiness test conflates
an empty geometry with an absent one. -/
theorem C10_falsy_geometry_gives_zero {G : Type} (E : Engine G)
    (st : Store G) (f : Feature)
    (h : E.truthy (st.get f.geometry) = false)
    (ha : E.area (st.get f.geometry) ≠ 0) :
    (get_feature_area E st f).2 = 0 ∧
      (get_feature_area E st f).2 ≠ E.area (st.get f.geometry) := by
  have h0 : (get_feature_area E st f).2 = 0 := by
    simp [get_feature_area, h]
  refine ⟨h0, ?_⟩
  rw [h0]
  exact fun hc => ha hc.symm

/-- Witness for C10: reference 4 of `stW` holds a falsy geometry whose
area under `EW` is 5, yet the function returns 0. -/
theorem C10_witness :
    (get_feature_area EW stW ⟨4⟩).2 = 0 ∧
      (get_feature_area EW stW ⟨4⟩).2 ≠ EW.area (stW.get 4) :=
  C10_falsy_geometry_gives_zero EW stW ⟨4⟩ (by decide) (by decide)

/-! ## C8: which functions mutate their input -/

/-- `clean_overlap` never mutates either input geometry (helper shared by
the C8 results). -/
theorem overlap_never_mutates : ¬overlap_mutates_an_input := by
  rintro ⟨E, st, a, b, ha, hb, h | h⟩
  · exact h (clean_overlap_frame E st a b a ha)
  · exact h (clean_overlap_frame E st a b b hb)

/-- `get_feature_area` never mutates the feature's geometry (helper shared
by the C8 results). -/
theorem area_never_mutates : ¬area_mutates_its_input := by
  rintro ⟨E, st, f, hf, hne⟩
  apply hne
  by_cases hc : E.truthy (st.get f.geometry) = true <;>
    simp [get_feature_area, hc]

/-- `clean_geometry_artifacts` does mutate its input geometry in place
(helper shared by the C8 results): deduplicating the geometry at
reference 5 of `stW` changes the stored value. -/
theorem artifacts_does_mutate : artifacts_mutates_its_input :=
  ⟨EW, stW, 5, by decide, by decide⟩

/-- C8 counterexample: it is not the case that exactly two of the three
public functions mutate their input geometry in place — `clean_overlap`
leaves its inputs untouched (it deduplicates only the fresh difference
result) and `get_feature_area` mutates nothing, so no two-element subset
of the three functions consists of input mutators. -/
theorem C8_counterexample_not_two_mutators : ¬exactly_two_mutate := by
  rintro (⟨h1, -, -⟩ | ⟨h1, -, -⟩ | ⟨-, -, h3⟩)
  · exact overlap_never_mutates h1
  · exact overlap_never_mutates h1
  · exact area_never_mutates h3

/-- C8 amended: exactly one of the three public functions —
`clean_geometry_artifacts` — mutates its input geometry in place via
vertex deduplication; `clean_overlap` applies deduplication only to the
freshly allocated difference (or repair) result and `get_feature_area`
performs no mutation at all. -/
theorem C8_amended_exactly_one_mutator :
    artifacts_mutates_its_input ∧ ¬overlap_mutates_an_input ∧
      ¬area_mutates_its_input :=
  ⟨artifacts_does_mutate, overlap_never_mutates, area_never_mutates⟩

end OverlapClipper
